import Mathlib

/-!
Verification of the pvinspect data model and sequence-normalization pipeline
(`pvinspect/data/image.py`, `pvinspect/data/io.py`).

Conventions of the shallow embedding:
* Pixel values are exact rationals.  Integer dtypes wrap modulo `2 ^ bits`
  where the source's numpy arithmetic wraps; float rounding is not modeled
  (no verified claim depends on it).
* A numpy array is an `NdArray`: a row-major list of rows plus a dtype tag.
* Python exceptions and the library's log-and-terminate path are both
  represented in `PyError`: `fatalExit` stands for `logging.error` followed by
  `exit()` (process termination, no exception object reaches the caller),
  while the remaining constructors stand for raised Python exceptions that do
  surface to the caller.
* Fallible operations return `Except PyError _`.
-/

/-- Outcomes of failing operations.  `fatalExit` models the
`logging.error(...)` + `exit()` termination path of the source; the other
constructors model raised Python exceptions. -/
inductive PyError where
  | typeError
  | runtimeError
  | indexError
  | valueError
  | fatalExit
deriving DecidableEq, Repr

instance {ε α : Type} [DecidableEq ε] [DecidableEq α] : DecidableEq (Except ε α) :=
  fun a b =>
    match a, b with
    | .error e, .error f =>
      if h : e = f then .isTrue (by rw [h]) else .isFalse (by simp [h])
    | .ok x, .ok y =>
      if h : x = y then .isTrue (by rw [h]) else .isFalse (by simp [h])
    | .error _, .ok _ => .isFalse (by simp)
    | .ok _, .error _ => .isFalse (by simp)

/-- The numpy dtypes reachable in this program: the codec delivers uint8,
uint16, float32 or float64 grayscale data, and the constructors below only
ever produce uint16/float32/float64. -/
inductive Dtype where
  | uint8
  | uint16
  | float32
  | float64
deriving DecidableEq, Repr

def Dtype.isFloat : Dtype → Bool
  | .float32 => true
  | .float64 => true
  | _ => false

/-- Bit width of the dtype (used for wrap-around of unsigned arithmetic). -/
def Dtype.bits : Dtype → ℕ
  | .uint8 => 8
  | .uint16 => 16
  | .float32 => 32
  | .float64 => 64

/-- Wrap a scalar result into the representable range of an unsigned dtype,
as numpy's modular unsigned arithmetic does; float dtypes are unconstrained
(floats are modeled as exact rationals). -/
def Dtype.wrap (dt : Dtype) (x : ℚ) : ℚ :=
  if dt.isFloat then x else ((Int.emod ⌊x⌋ (2 ^ dt.bits) : ℤ) : ℚ)

/-- A 2-D grayscale raster: list of rows. -/
abbrev Matrix2 := List (List ℚ)

/-- A numpy array: raster data together with its dtype tag. -/
structure NdArray where
  data : Matrix2
  dtype : Dtype
deriving DecidableEq, Repr

/-- `arr.shape` for a 2-D array: (number of rows, number of columns). -/
def NdArray.shape (a : NdArray) : ℕ × ℕ :=
  (a.data.length, (a.data.headD []).length)

/-- `arr.min()`: minimum entry (0 on the empty array, which the program never
takes the minimum of). -/
def NdArray.min (a : NdArray) : ℚ :=
  match a.data.flatten with
  | [] => 0
  | x :: xs => xs.foldl (fun m y => if y < m then y else m) x

/-- `arr.astype(dt)`.  Casting to a float dtype preserves the numeric values
exactly (the repository only ever casts unsigned data to float64, which is
lossless); the unsigned branch truncates and wraps like a C cast and is not
exercised by the repository. -/
def NdArray.astype (a : NdArray) (dt : Dtype) : NdArray :=
  if dt.isFloat then ⟨a.data, dt⟩
  else ⟨a.data.map (List.map fun x => ((Int.emod ⌊x⌋ (2 ^ dt.bits) : ℤ) : ℚ)), dt⟩

/-- Modelled from the spec: the external skimage conversion collaborator's
`img_as_uint` (the codec/conversion library is outside this repository).  Per
the spec it performs a lossless rescale from the source dtype's native range
to the 16-bit unsigned range: uint16 data is returned unchanged, uint8 is
rescaled by 257 (= 65535/255), and float data in [0, 1] is scaled to
[0, 65535] and rounded. -/
def img_as_uint (a : NdArray) : NdArray :=
  match a.dtype with
  | .uint16 => a
  | .uint8 => ⟨a.data.map (List.map fun x => x * 257), .uint16⟩
  | _ =>
    ⟨a.data.map (List.map fun x =>
      ((⌊(max 0 (min 1 x)) * 65535 + 1 / 2⌋ : ℤ) : ℚ)), .uint16⟩

/-- Modelled from the spec: the external skimage `img_as_float` collaborator.
Float data is kept as is; unsigned data is rescaled to [0, 1] as float64. -/
def img_as_float (a : NdArray) : NdArray :=
  if a.dtype.isFloat then a
  else ⟨a.data.map (List.map fun x => x / 65535), .float64⟩

/-- `Image`: data (`_data`), path (`_path`) and modality (`_modality`).
Paths are plain strings; modality is `EL_IMAGE = 0`, `PL_IMAGE = 1` or
`none`. -/
structure Image where
  data : NdArray
  path : String
  modality : Option ℕ
deriving DecidableEq, Repr

/-- `Image.__init__`: any dtype other than float32/float64 is converted with
`img_as_uint` before being stored. -/
def Image.init (data : NdArray) (path : String) (modality : Option ℕ) : Image :=
  if data.dtype.isFloat then ⟨data, path, modality⟩
  else ⟨img_as_uint data, path, modality⟩

/-- `Image.dtype` property. -/
def Image.dtype (i : Image) : Dtype := i.data.dtype

/-- `Image.shape` property. -/
def Image.shape (i : Image) : ℕ × ℕ := i.data.shape

/-- `Image.as_type`: converts through the skimage collaborator and rebuilds
the image via `from_other` (which re-runs `__init__` on the converted data,
keeping path and modality). -/
def Image.as_type (i : Image) (dtype : Dtype) : Image :=
  if dtype.isFloat then Image.init (img_as_float i.data) i.path i.modality
  else Image.init (img_as_uint i.data) i.path i.modality

/-- Elementwise combination of two rasters (numpy broadcasting is not
modeled: the program combines equal-shaped rasters). -/
def map2Mat (f : ℚ → ℚ → ℚ) (a b : Matrix2) : Matrix2 :=
  List.zipWith (List.zipWith f) a b

/-- Common body of `Image.__add__/__sub__/__mul__/__floordiv__/__mod__/
__pow__`: dtype mismatch raises `RuntimeError`; otherwise the elementwise
result (wrapped for unsigned dtypes) is rebuilt via `from_other`, i.e.
through `Image.__init__` with path and modality preserved. -/
def Image.binop (f : ℚ → ℚ → ℚ) (a b : Image) : Except PyError Image :=
  if a.dtype ≠ b.dtype then .error .runtimeError
  else
    .ok (Image.init
      ⟨map2Mat (fun x y => a.dtype.wrap (f x y)) a.data.data b.data.data, a.dtype⟩
      a.path a.modality)

/-- `Image.__add__`. -/
def Image.add : Image → Image → Except PyError Image :=
  Image.binop (fun x y => x + y)

/-- `Image.__sub__`. -/
def Image.sub : Image → Image → Except PyError Image :=
  Image.binop (fun x y => x - y)

/-- `Image.__mul__`. -/
def Image.mul : Image → Image → Except PyError Image :=
  Image.binop (fun x y => x * y)

/-- `Image.__floordiv__` (scalar op modeled as rational floor division). -/
def Image.floordiv : Image → Image → Except PyError Image :=
  Image.binop (fun x y => ((⌊x / y⌋ : ℤ) : ℚ))

/-- `Image.__mod__` (scalar op modeled as `x - y * floor (x / y)`). -/
def Image.mod : Image → Image → Except PyError Image :=
  Image.binop (fun x y => x - y * ((⌊x / y⌋ : ℤ) : ℚ))

/-- `Image.__pow__` (exponent modeled by its integer part; no claim evaluates
this numerically). -/
def Image.pow : Image → Image → Except PyError Image :=
  Image.binop (fun x y => x ^ ⌊y⌋)

/-- `Image.__truediv__`: both operands must be float-typed, otherwise a
`RuntimeError` is raised; the quotient keeps float32 only when both operands
are float32 (numpy promotion). -/
def Image.truediv (a b : Image) : Except PyError Image :=
  if ¬(a.dtype.isFloat = true ∧ b.dtype.isFloat = true) then .error .runtimeError
  else
    .ok (Image.init
      ⟨map2Mat (fun x y => x / y) a.data.data b.data.data,
        if a.dtype = .float32 ∧ b.dtype = .float32 then .float32 else .float64⟩
      a.path a.modality)

/-- `CellImage`: an `Image` plus 0-based row/col grid position. -/
structure CellImage extends Image where
  row : ℕ
  col : ℕ
deriving DecidableEq, Repr

/-- `CellImage.__init__`: normalizes the data through `Image.__init__`
(argument order of the source: data, modality, path, row, col). -/
def CellImage.init (data : NdArray) (modality : Option ℕ) (path : String)
    (row : ℕ) (col : ℕ) : CellImage :=
  { toImage := Image.init data path modality, row := row, col := col }

/-- `ModuleImage`: an `Image` plus optional cell-grid dimensions.  The opaque
`Transform` collaborator is stored by reference only and invoked only by the
display path, so it is not modeled. -/
structure ModuleImage extends Image where
  cols : Option ℕ
  rows : Option ℕ
deriving DecidableEq, Repr

/-- `ModuleImage.__init__` (argument order of the source: data, modality,
path, cols, rows). -/
def ModuleImage.init (data : NdArray) (modality : Option ℕ) (path : String)
    (cols : Option ℕ) (rows : Option ℕ) : ModuleImage :=
  { toImage := Image.init data path modality, cols := cols, rows := rows }

/-- `ModuleImage.grid`: the `(cols+1) * (rows+1)` lattice of grid corners,
`x` varying slowest (as `np.mgrid[0:cols+1, 0:rows+1]` flattened row-major);
if `cols` or `rows` is unset the error is logged and the process terminated. -/
def ModuleImage.grid (m : ModuleImage) : Except PyError (List (ℕ × ℕ)) :=
  match m.cols, m.rows with
  | some c, some r =>
    .ok ((List.range (c + 1)).flatMap fun x => (List.range (r + 1)).map fun y => (x, y))
  | _, _ => .error .fatalExit

/-- The homogeneity checks of `ImageSequence.__init__`: an empty image list,
a dtype mismatch without the `allow_different_dtypes` waiver, a shape
mismatch under `same_camera`, and a modality mismatch are all fatal
(logged, then the process terminates). -/
def ImageSequence.checks (images : List Image) (same_camera : Bool)
    (allow_different_dtypes : Bool) : Except PyError Unit :=
  match images with
  | [] => .error .fatalExit
  | first :: _ =>
    if images.all fun img =>
        (decide (img.dtype = first.dtype) || allow_different_dtypes)
        && (decide (img.shape = first.shape) || !same_camera)
        && decide (img.modality = first.modality)
    then .ok ()
    else .error .fatalExit

/-- `ImageSequence`: the stored image list and constructor flags. -/
structure ImageSequence where
  images : List Image
  same_camera : Bool
  allow_different_dtypes : Bool
deriving DecidableEq, Repr

/-- `ImageSequence.__init__`: stores the fields, then runs the homogeneity
checks. -/
def ImageSequence.init (images : List Image) (same_camera : Bool)
    (allow_different_dtypes : Bool) : Except PyError ImageSequence :=
  match ImageSequence.checks images same_camera allow_different_dtypes with
  | .error e => .error e
  | .ok _ => .ok ⟨images, same_camera, allow_different_dtypes⟩

/-- `ImageSequence.dtype` property: the first image's dtype, or `None` when
different dtypes were allowed.  (The `images[0]` access cannot fail on a
constructed sequence, which is never empty.) -/
def ImageSequence.dtype (s : ImageSequence) : Option Dtype :=
  if s.allow_different_dtypes then none else s.images.head?.map Image.dtype

/-- `ImageSequence.shape` property: the first image's shape, or `None` when
the images are not from the same camera. -/
def ImageSequence.shape (s : ImageSequence) : Option (ℕ × ℕ) :=
  if s.same_camera then s.images.head?.map Image.shape else none

/-- Evaluation of a Python list comprehension over fallible elements: the
first raised exception propagates. -/
def mapExcept (f : α → Except PyError β) : List α → Except PyError (List β)
  | [] => .ok []
  | x :: xs =>
    match f x with
    | .error e => .error e
    | .ok y =>
      match mapExcept f xs with
      | .error e => .error e
      | .ok ys => .ok (y :: ys)

/-- Common body of the seven `ImageSequence` arithmetic operators: the image
operator is applied pairwise over `zip(self.images, other.images)` and the
results are rebuilt into a sequence via `from_other` (re-running
`ImageSequence.__init__` with the left operand's flags). -/
def ImageSequence.seqMap2 (op : Image → Image → Except PyError Image)
    (a b : ImageSequence) : Except PyError ImageSequence :=
  match mapExcept (fun p => op p.1 p.2) (a.images.zip b.images) with
  | .error e => .error e
  | .ok res => ImageSequence.init res a.same_camera a.allow_different_dtypes

/-- `ImageSequence.__add__`. -/
def ImageSequence.add : ImageSequence → ImageSequence → Except PyError ImageSequence :=
  ImageSequence.seqMap2 Image.add

/-- `ImageSequence.__sub__`. -/
def ImageSequence.sub : ImageSequence → ImageSequence → Except PyError ImageSequence :=
  ImageSequence.seqMap2 Image.sub

/-- `ImageSequence.__mul__`. -/
def ImageSequence.mul : ImageSequence → ImageSequence → Except PyError ImageSequence :=
  ImageSequence.seqMap2 Image.mul

/-- `ImageSequence.__truediv__`. -/
def ImageSequence.truediv : ImageSequence → ImageSequence → Except PyError ImageSequence :=
  ImageSequence.seqMap2 Image.truediv

/-- `ImageSequence.__floordiv__`. -/
def ImageSequence.floordiv : ImageSequence → ImageSequence → Except PyError ImageSequence :=
  ImageSequence.seqMap2 Image.floordiv

/-- `ImageSequence.__mod__`. -/
def ImageSequence.mod : ImageSequence → ImageSequence → Except PyError ImageSequence :=
  ImageSequence.seqMap2 Image.mod

/-- `ImageSequence.__pow__`. -/
def ImageSequence.pow : ImageSequence → ImageSequence → Except PyError ImageSequence :=
  ImageSequence.seqMap2 Image.pow

/-- `CellImageSequence`: fixes `same_camera = False`; its second constructor
argument is named `copy` in the source. -/
structure CellImageSequence where
  images : List CellImage
  same_camera : Bool
  allow_different_dtypes : Bool
deriving DecidableEq, Repr

/-- `CellImageSequence.__init__(images, copy=True)`: calls the base
constructor as `super().__init__(images, False, copy)`, so the `copy` flag is
passed in the `allow_different_dtypes` position. -/
def CellImageSequence.init (images : List CellImage) (copy : Bool) :
    Except PyError CellImageSequence :=
  match ImageSequence.checks (images.map CellImage.toImage) false copy with
  | .error e => .error e
  | .ok _ => .ok ⟨images, false, copy⟩

/-- `CellImageSequence`'s inherited `dtype` property. -/
def CellImageSequence.dtype (s : CellImageSequence) : Option Dtype :=
  if s.allow_different_dtypes then none
  else (s.images.map CellImage.toImage).head?.map Image.dtype

/-- `ModuleImageSequence`: additionally requires uniform module geometry. -/
structure ModuleImageSequence where
  images : List ModuleImage
  same_camera : Bool
  allow_different_dtypes : Bool
deriving DecidableEq, Repr

/-- `ModuleImageSequence.__init__`: reads `images[0].cols` before any
emptiness check (an empty list therefore raises `IndexError`), requires all
images to share `cols` and `rows` (mismatch is fatal), then runs the base
constructor's checks. -/
def ModuleImageSequence.init (images : List ModuleImage) (same_camera : Bool)
    (allow_different_dtypes : Bool) : Except PyError ModuleImageSequence :=
  match images with
  | [] => .error .indexError
  | first :: _ =>
    if images.all fun img =>
        decide (img.cols = first.cols) && decide (img.rows = first.rows)
    then
      match ImageSequence.checks (images.map ModuleImage.toImage) same_camera
          allow_different_dtypes with
      | .error e => .error e
      | .ok _ => .ok ⟨images, same_camera, allow_different_dtypes⟩
    else .error .fatalExit

/-- The universe of Python values the sequence adapter `_sequence` inspects:
bare images (with their exact runtime class), sequences, and pairs (the only
tuple shape the adapter's unwrap step distinguishes). -/
inductive PyVal where
  | img (i : Image)
  | mimg (m : ModuleImage)
  | iseq (s : ImageSequence)
  | mseq (s : ModuleImageSequence)
  | tup2 (a b : PyVal)
deriving DecidableEq, Repr

/-- `isinstance(v, ImageSequence)` (covers the subclasses). -/
def PyVal.isSeq : PyVal → Bool
  | .iseq _ => true
  | .mseq _ => true
  | _ => false

/-- The unwrap step of the `_sequence` wrapper: a sequence result is replaced
by its first image (`res.images[0]`); a tuple result whose first member is a
sequence hits `res[0] = res[0].images[0]`, an item assignment on a tuple,
which raises `TypeError`; any other result is returned unchanged. -/
def unwrap_result (res : PyVal) : Except PyError PyVal :=
  match res with
  | .tup2 a _ => if a.isSeq then .error .typeError else .ok res
  | .iseq s =>
    match s.images with
    | i :: _ => .ok (.img i)
    | [] => .error .indexError
  | .mseq s =>
    match s.images with
    | m :: _ => .ok (.mimg m)
    | [] => .error .indexError
  | r => .ok r

/-- The wrapper produced by the `_sequence` decorator.  A non-sequence first
argument is wrapped into a length-1 sequence — `ModuleImageSequence` exactly
when its runtime class is `ModuleImage`, else plain `ImageSequence` — and
`unwrap` is noted.  After the call, when `unwrap` was noted and unwrapping is
not disabled, the result goes through `unwrap_result`. -/
def wrapper_sequence (disable_unwrap : Bool)
    (func : PyVal → Except PyError PyVal) (arg : PyVal) :
    Except PyError PyVal :=
  let wrapped : Except PyError (PyVal × Bool) :=
    if arg.isSeq then .ok (arg, false)
    else
      match arg with
      | .mimg m =>
        match ModuleImageSequence.init [m] false false with
        | .error e => .error e
        | .ok s => .ok (.mseq s, true)
      | .img i =>
        match ImageSequence.init [i] false false with
        | .error e => .error e
        | .ok s => .ok (.iseq s, true)
      | _ =>
        -- `ImageSequence([a_tuple], same_camera=False)` would fault reading
        -- image attributes off the tuple; the adapter is never called so.
        .error .typeError
  match wrapped with
  | .error e => .error e
  | .ok (arg2, unwrap) =>
    match func arg2 with
    | .error e => .error e
    | .ok res =>
      if unwrap && !disable_unwrap then unwrap_result res
      else .ok res

/-- Elementwise maximum of a nonempty list of shapes
(`np.max(shapes, axis=0)`). -/
def boundingShape (s : ℕ × ℕ) (rest : List (ℕ × ℕ)) : ℕ × ℕ :=
  rest.foldl (fun a b => (max a.1 b.1, max a.2 b.2)) s

/-- `np.full(target, fill)` followed by `tgt[:h, :w] = data`: a canvas of the
target shape filled with `fill`, with `data` pasted at the top-left origin. -/
def padCanvas (target : ℕ × ℕ) (fill : ℚ) (data : Matrix2) : Matrix2 :=
  (List.range target.1).map fun i =>
    (List.range target.2).map fun j =>
      match data.get? i with
      | some row => (row.get? j).getD fill
      | none => fill

/-- The heterogeneity-resolution step of `_read_module_images`
(io.py lines 78–98), run when `same_camera` is false.  On an empty image
list `np.max([], axis=0)` raises `ValueError`.  If dtypes or shapes are
non-uniform, every image is rebuilt: data cast to float64 when dtypes were
mixed; when shapes were mixed, a canvas of the bounding shape filled with
that image's own minimum, original data pasted at the origin; then rewrapped
as `ModuleImage` preserving modality, path, cols and rows. -/
def resolveHeterogeneity (imgs : List ModuleImage) :
    Except PyError (List ModuleImage) :=
  match imgs with
  | [] => .error .valueError
  | first :: rest =>
    let homogeneous_types := imgs.all fun img =>
      decide (img.toImage.dtype = first.toImage.dtype)
    let homogeneous_shapes := imgs.all fun img =>
      decide (img.toImage.shape = first.toImage.shape)
    let target_shape :=
      boundingShape first.toImage.shape (rest.map fun img => img.toImage.shape)
    if !homogeneous_types || !homogeneous_shapes then
      .ok (imgs.map fun img =>
        let data := img.toImage.data
        let data :=
          if !homogeneous_types then data.astype .float64 else data
        let data :=
          if !homogeneous_shapes then
            (⟨padCanvas target_shape data.min data.data, data.dtype⟩ : NdArray)
          else data
        ModuleImage.init data img.toImage.modality img.toImage.path
          img.cols img.rows)
    else .ok imgs

/-- The tail of `_read_module_images` after decoding (io.py lines 78–100),
taking the already-decoded `ModuleImage` list.  When `same_camera` is false
the heterogeneity-resolution step runs; the final statement then calls
`ModuleImageSequence(imgs, copy=False, same_camera=..., allow_different_dtypes=...)`,
but `ModuleImageSequence.__init__` accepts no `copy` keyword, so the call
raises `TypeError` before the constructor body runs and the function never
returns a sequence. -/
def read_module_images_core (imgs : List ModuleImage) (same_camera : Bool)
    (allow_different_dtypes : Bool) : Except PyError ModuleImageSequence :=
  match if same_camera then .ok imgs else resolveHeterogeneity imgs with
  | .error e => .error e
  | .ok imgs =>
    let _ := imgs
    let _ := allow_different_dtypes
    .error .typeError

/-! Concrete instances used by the individual claims. -/

/-- C1 input: a 10 × 10 uint16 image of constant value 3. -/
def c1img1 : ModuleImage :=
  ModuleImage.init ⟨List.replicate 10 (List.replicate 10 3), .uint16⟩
    (some 0) "a.png" (some 10) (some 6)

/-- C1 input: a 10 × 12 uint16 image of constant value 5. -/
def c1img2 : ModuleImage :=
  ModuleImage.init ⟨List.replicate 10 (List.replicate 12 5), .uint16⟩
    (some 0) "b.png" (some 10) (some 6)

/-- C1 input: a 12 × 10 uint16 image, first row 2, remaining rows 9
(minimum value 2). -/
def c1img3 : ModuleImage :=
  ModuleImage.init
    ⟨List.replicate 10 2 :: List.replicate 11 (List.replicate 10 9), .uint16⟩
    (some 0) "c.png" (some 10) (some 6)

/-- C2 input: a 10 × 10 uint16 image of constant value 3. -/
def c2img1 : ModuleImage :=
  ModuleImage.init ⟨List.replicate 10 (List.replicate 10 3), .uint16⟩
    (some 0) "a.png" (some 10) (some 6)

/-- C2 input: a 10 × 10 float64 image of constant value 7. -/
def c2img2 : ModuleImage :=
  ModuleImage.init ⟨List.replicate 10 (List.replicate 10 7), .float64⟩
    (some 0) "b.png" (some 10) (some 6)

/-- C3 input image. -/
def c3imgA : Image := Image.init ⟨[[1]], .uint16⟩ "a" (some 0)

/-- C3 input image. -/
def c3imgB : Image := Image.init ⟨[[2]], .uint16⟩ "b" (some 0)

/-- C3 input: a length-2 sequence. -/
def c3seqA : ImageSequence := ⟨[c3imgA, c3imgB], false, false⟩

/-- C3 input: a length-1 sequence. -/
def c3seqB : ImageSequence := ⟨[c3imgA], false, false⟩

/-- The sequence produced by `c3seqA + c3seqB`: a single image holding the
elementwise (wrapped) sum of the two first images. -/
def c3res : ImageSequence :=
  ⟨[⟨⟨[[Dtype.wrap .uint16 (1 + 1)]], .uint16⟩, "a", some 0⟩], false, false⟩

/-- C4 input: a uint16 image. -/
def c4imgU : Image := Image.init ⟨[[1]], .uint16⟩ "u" (some 0)

/-- C4 input: a float64 image. -/
def c4imgF : Image := Image.init ⟨[[7]], .float64⟩ "f" (some 0)

/-- C6 input: a `ModuleImage` handed to the adapted function. -/
def c6mimg : ModuleImage :=
  ModuleImage.init ⟨[[4]], .uint16⟩ (some 0) "m" (some 2) (some 3)

/-- C6 input: a plain `Image` handed to the adapted function. -/
def c6img : Image := Image.init ⟨[[7]], .uint16⟩ "i" (some 0)

/-- C6: second member of the tuple returned by the wrapped function. -/
def c6extra : Image := Image.init ⟨[[0]], .uint16⟩ "e" (some 0)

/-- C8 witness input: a module image with cols = 2 and rows = 1. -/
def c8mi : ModuleImage :=
  ModuleImage.init ⟨[[1]], .uint16⟩ (some 0) "g" (some 2) (some 1)

/-- C10 input: a uint16 cell image. -/
def c10cu : CellImage := CellImage.init ⟨[[1]], .uint16⟩ (some 0) "u" 0 0

/-- C10 input: a float64 cell image of the same modality. -/
def c10cf : CellImage := CellImage.init ⟨[[7]], .float64⟩ (some 0) "f" 0 1

/-! Helper lemmas shared between claims. -/

/-- A successful fallible comprehension preserves the length of its input. -/
theorem mapExcept_length (f : α → Except PyError β) :
    ∀ {l : List α} {res : List β}, mapExcept f l = .ok res → res.length = l.length := by
  intro l
  induction l with
  | nil =>
    intro res h
    simp only [mapExcept] at h
    cases h
    rfl
  | cons x xs ih =>
    intro res h
    simp only [mapExcept] at h
    cases hfx : f x with
    | error e => rw [hfx] at h; cases h
    | ok y =>
      rw [hfx] at h
      cases hrest : mapExcept f xs with
      | error e => rw [hrest] at h; cases h
      | ok ys =>
        rw [hrest] at h
        cases h
        simp [ih hrest]

/-- The uint8-to-uint16 rescale of the conversion collaborator is injective
on rasters (it is multiplication by 257 entrywise). -/
theorem rescale257_injective :
    Function.Injective fun m : Matrix2 => m.map (List.map fun x => x * 257) := by
  have h1 : Function.Injective fun x : ℚ => x * 257 := by
    intro x y h
    have h257 : (257 : ℚ) ≠ 0 := by norm_num
    exact mul_right_cancel₀ h257 h
  have h2 : Function.Injective (List.map fun x : ℚ => x * 257) :=
    List.map_injective_iff.mpr h1
  exact List.map_injective_iff.mpr h2

set_option maxRecDepth 8000 in
/-- Claim C1 (code bug): a bulk read with `same_camera = False` over three
uint16 images of shapes (10,10), (10,12), (12,10) never returns a sequence.
The heterogeneity-resolution step does build, for every image, a canvas of
the bounding shape (12,12) filled with that image's own minimum value, the
original data pasted at the top-left origin and the dtype preserved — but
the final `ModuleImageSequence(imgs, copy=False, ...)` call raises
`TypeError`, since `copy` is not a parameter of the constructor. -/
theorem c1_bulk_read_mixed_shapes :
    resolveHeterogeneity [c1img1, c1img2, c1img3] =
      .ok [⟨⟨⟨List.replicate 12 (List.replicate 12 3), .uint16⟩, "a.png", some 0⟩,
          some 10, some 6⟩,
        ⟨⟨⟨List.replicate 12 (List.replicate 12 5), .uint16⟩, "b.png", some 0⟩,
          some 10, some 6⟩,
        ⟨⟨⟨List.replicate 12 2 :: List.replicate 11 (List.replicate 10 9 ++ [2, 2]),
            .uint16⟩, "c.png", some 0⟩, some 10, some 6⟩] ∧
    read_module_images_core [c1img1, c1img2, c1img3] false false = .error .typeError := by
  constructor
  · decide
  · decide

set_option maxRecDepth 8000 in
/-- Claim C2 (code bug): a bulk read with `same_camera = False` over images
of differing dtypes never returns a sequence.  The resolution step does cast
every image's data to float64 with the numeric values preserved — but the
final `ModuleImageSequence(imgs, copy=False, ...)` call raises `TypeError`,
since `copy` is not a parameter of the constructor. -/
theorem c2_bulk_read_mixed_dtypes :
    resolveHeterogeneity [c2img1, c2img2] =
      .ok [⟨⟨⟨List.replicate 10 (List.replicate 10 3), .float64⟩, "a.png", some 0⟩,
          some 10, some 6⟩,
        ⟨⟨⟨List.replicate 10 (List.replicate 10 7), .float64⟩, "b.png", some 0⟩,
          some 10, some 6⟩] ∧
    read_module_images_core [c2img1, c2img2] false true = .error .typeError := by
  decide

/-- Claim C3 counterexample: sequence arithmetic does not require equal
lengths — adding a legitimately constructed length-2 sequence to a length-1
sequence succeeds and silently truncates to the shorter length. -/
theorem c3_counterexample :
    ImageSequence.init [c3imgA, c3imgB] false false = .ok c3seqA ∧
    ImageSequence.init [c3imgA] false false = .ok c3seqB ∧
    c3seqA.images.length = 2 ∧ c3seqB.images.length = 1 ∧
    ImageSequence.add c3seqA c3seqB = .ok c3res ∧
    c3res.images.length = 1 ∧
    Dtype.wrap .uint16 (1 + 1) = 2 := by
  refine ⟨by decide, by decide, rfl, rfl, rfl, rfl, ?_⟩
  norm_num [Dtype.wrap, Dtype.isFloat, Dtype.bits]

/-- Claim C3 amended: the seven sequence operators (each of which is
`ImageSequence.seqMap2` of the corresponding image operator) pair images by
position via `zip`, truncating to the shorter operand with no length check;
on success the result holds exactly the pairwise image results, in order,
and carries the left operand's flags. -/
theorem c3_seq_arith_pairwise (op : Image → Image → Except PyError Image)
    (a b s : ImageSequence) (h : ImageSequence.seqMap2 op a b = .ok s) :
    s.images.length = min a.images.length b.images.length ∧
    mapExcept (fun p => op p.1 p.2) (a.images.zip b.images) = .ok s.images ∧
    s.same_camera = a.same_camera ∧
    s.allow_different_dtypes = a.allow_different_dtypes := by
  unfold ImageSequence.seqMap2 at h
  split at h
  next e heq => exact Except.noConfusion h
  next res hm =>
    unfold ImageSequence.init at h
    split at h
    next e heq => exact Except.noConfusion h
    next u hc =>
      injection h with hs
      subst hs
      refine ⟨?_, hm, rfl, rfl⟩
      rw [show (⟨res, a.same_camera, a.allow_different_dtypes⟩ :
        ImageSequence).images = res from rfl]
      rw [mapExcept_length _ hm, List.length_zip]

/-- Witness for the amended C3 theorem at the concrete unequal-length
sequences. -/
theorem c3_seq_arith_pairwise_witness :
    c3res.images.length = min c3seqA.images.length c3seqB.images.length ∧
    mapExcept (fun p => Image.add p.1 p.2) (c3seqA.images.zip c3seqB.images) =
      .ok c3res.images ∧
    c3res.same_camera = c3seqA.same_camera ∧
    c3res.allow_different_dtypes = c3seqA.allow_different_dtypes :=
  c3_seq_arith_pairwise Image.add c3seqA c3seqB c3res rfl

/-- Claim C4 counterexample: adding a uint16 image to a float64 image does
not terminate the process — it raises a `RuntimeError`, an exception object
that surfaces to the caller, which is not the fatal log-and-exit outcome. -/
theorem c4_counterexample :
    Image.add c4imgU c4imgF = .error .runtimeError ∧
    Image.add c4imgU c4imgF ≠ .error .fatalExit := by
  decide

/-- Claim C4 amended: for every pair of images with differing dtypes, each of
the operators `+ - * // % **` (all instances of `Image.binop`) raises a
`RuntimeError` that surfaces to the caller; the process is not terminated. -/
theorem c4_mismatched_dtypes_raise (f : ℚ → ℚ → ℚ) (a b : Image)
    (h : a.dtype ≠ b.dtype) :
    Image.binop f a b = .error .runtimeError ∧
    Image.binop f a b ≠ .error .fatalExit := by
  unfold Image.binop
  rw [if_pos h]
  exact ⟨rfl, by simp⟩

/-- Witness for the amended C4 theorem at a concrete mismatched pair. -/
theorem c4_mismatched_dtypes_raise_witness :
    Image.binop (fun x y => x + y) c4imgU c4imgF = .error .runtimeError ∧
    Image.binop (fun x y => x + y) c4imgU c4imgF ≠ .error .fatalExit :=
  c4_mismatched_dtypes_raise (fun x y => x + y) c4imgU c4imgF (by decide)

/-- Claim C5 counterexample: constructing a `ModuleImageSequence` from an
empty image list does not fail with the fatal logged error — `images[0].cols`
raises an `IndexError` before the emptiness check is ever reached. -/
theorem c5_counterexample :
    ModuleImageSequence.init [] false false = .error .indexError ∧
    ModuleImageSequence.init [] false false ≠ .error .fatalExit := by
  decide

/-- Claim C5 amended: empty construction always fails, for every flag
combination — `ImageSequence` and `CellImageSequence` with the fatal
empty-sequence error, but `ModuleImageSequence` with an `IndexError` raised
while reading the first image's module geometry. -/
theorem c5_empty_sequence_fails (same_camera allow_different_dtypes copy : Bool) :
    ImageSequence.init [] same_camera allow_different_dtypes = .error .fatalExit ∧
    CellImageSequence.init [] copy = .error .fatalExit ∧
    ModuleImageSequence.init [] same_camera allow_different_dtypes =
      .error .indexError :=
  ⟨rfl, rfl, rfl⟩

/-- Claim C6 (code bug): the adapter wraps a single image into a length-1
sequence (`ModuleImageSequence` for a `ModuleImage`, else a plain
`ImageSequence`), unwraps a length-1 sequence result into its single image
when unwrapping is enabled, and returns the sequence itself when unwrapping
is disabled; but when the wrapped function returns a tuple whose first
member is a sequence, the attempted `res[0] = res[0].images[0]` is an item
assignment on a tuple and raises `TypeError` instead of replacing the first
element. -/
theorem c6_sequence_adapter :
    wrapper_sequence false (fun v => .ok (.tup2 v (.img c6extra))) (.mimg c6mimg) =
      .error .typeError ∧
    wrapper_sequence false (fun v => .ok v) (.mimg c6mimg) = .ok (.mimg c6mimg) ∧
    wrapper_sequence true (fun v => .ok v) (.mimg c6mimg) =
      .ok (.mseq ⟨[c6mimg], false, false⟩) ∧
    wrapper_sequence false (fun v => .ok v) (.img c6img) = .ok (.img c6img) ∧
    wrapper_sequence true (fun v => .ok v) (.img c6img) =
      .ok (.iseq ⟨[c6img], false, false⟩) := by
  decide

/-- Claim C7 (confirmed): `as_type(uint16)` is idempotent — applying it a
second time leaves the image (data included) unchanged, for every image. -/
theorem c7_as_type_uint16_idempotent (i : Image) :
    (i.as_type .uint16).as_type .uint16 = i.as_type .uint16 := by
  obtain ⟨⟨mat, dt⟩, path, modality⟩ := i
  cases dt <;> simp [Image.as_type, Image.init, img_as_uint, Dtype.isFloat]

/-- Claim C8 (confirmed): when `cols` and `rows` are both set, `grid()`
returns the list of exactly the (cols+1)·(rows+1) integer corner pairs
(x, y) with x ≤ cols and y ≤ rows, without duplicates; when either is unset
it fails with the fatal configuration error. -/
theorem c8_grid_lattice (m : ModuleImage) :
    (∀ c r, m.cols = some c → m.rows = some r →
      ∃ l, m.grid = .ok l ∧ l.length = (c + 1) * (r + 1) ∧ l.Nodup ∧
        ∀ x y, ((x, y) ∈ l ↔ x ≤ c ∧ y ≤ r)) ∧
    ((m.cols = none ∨ m.rows = none) → m.grid = .error .fatalExit) := by
  constructor
  · intro c r hc hr
    refine ⟨(List.range (c + 1)) ×ˢ (List.range (r + 1)), ?_, ?_, ?_, ?_⟩
    · unfold ModuleImage.grid
      rw [hc, hr]
      rfl
    · rw [List.length_product, List.length_range, List.length_range]
    · exact (List.nodup_range _).product (List.nodup_range _)
    · intro x y
      rw [List.mem_product, List.mem_range, List.mem_range,
        Nat.lt_succ_iff, Nat.lt_succ_iff]
  · intro h
    unfold ModuleImage.grid
    rcases h with h | h
    · rw [h]
    · rw [h]
      cases m.cols <;> rfl

/-- Witness for the C8 theorem at a concrete module image with cols = 2 and
rows = 1. -/
theorem c8_grid_lattice_witness :
    ∃ l, c8mi.grid = .ok l ∧ l.length = 6 ∧ l.Nodup ∧
      ((2, 1) ∈ l ∧ ¬(3, 0) ∈ l) := by
  obtain ⟨l, h1, h2, h3, h4⟩ := (c8_grid_lattice c8mi).1 2 1 rfl rfl
  refine ⟨l, h1, h2, h3, (h4 2 1).2 ⟨by norm_num, le_refl 1⟩, fun hmem => ?_⟩
  have := (h4 3 0).1 hmem
  omega

/-- Claim C9 (confirmed): construction normalizes the dtype — float32/64
data is stored unchanged, any other dtype is converted by the collaborator
rescale `img_as_uint` (injective on rasters for the unsigned source dtypes,
hence lossless), so a constructed image's dtype is always uint16, float32 or
float64. -/
theorem c9_construction_normalizes_dtype (a : NdArray) (path : String)
    (modality : Option ℕ) :
    ((Image.init a path modality).dtype = .uint16 ∨
      (Image.init a path modality).dtype = .float32 ∨
      (Image.init a path modality).dtype = .float64) ∧
    (a.dtype.isFloat = true → (Image.init a path modality).data = a) ∧
    (a.dtype.isFloat = false →
      (Image.init a path modality).data = img_as_uint a ∧
      ∀ m₁ m₂ : Matrix2, img_as_uint ⟨m₁, a.dtype⟩ = img_as_uint ⟨m₂, a.dtype⟩ →
        m₁ = m₂) := by
  obtain ⟨mat, dt⟩ := a
  cases dt with
  | uint8 =>
    refine ⟨Or.inl rfl, ?_, ?_⟩
    · intro h
      cases h
    · intro hu
      refine ⟨rfl, fun m₁ m₂ h => ?_⟩
      have h2 := congrArg NdArray.data h
      simp only [img_as_uint] at h2
      exact rescale257_injective h2
  | uint16 =>
    refine ⟨Or.inl rfl, ?_, ?_⟩
    · intro h
      cases h
    · intro hu
      refine ⟨rfl, fun m₁ m₂ h => ?_⟩
      have h2 := congrArg NdArray.data h
      simpa [img_as_uint] using h2
  | float32 =>
    refine ⟨Or.inr (Or.inl rfl), ?_, ?_⟩
    · intro hu
      rfl
    · intro h
      cases h
  | float64 =>
    refine ⟨Or.inr (Or.inr rfl), ?_, ?_⟩
    · intro hu
      rfl
    · intro h
      cases h

/-- Witness for the C9 theorem at a concrete uint8 input. -/
theorem c9_construction_normalizes_dtype_witness :
    ((Image.init ⟨[[2]], .uint8⟩ "p" none).dtype = .uint16 ∨
      (Image.init ⟨[[2]], .uint8⟩ "p" none).dtype = .float32 ∨
      (Image.init ⟨[[2]], .uint8⟩ "p" none).dtype = .float64) ∧
    (Image.init ⟨[[2]], .uint8⟩ "p" none).data = img_as_uint ⟨[[2]], .uint8⟩ :=
  ⟨(c9_construction_normalizes_dtype ⟨[[2]], .uint8⟩ "p" none).1,
    ((c9_construction_normalizes_dtype ⟨[[2]], .uint8⟩ "p" none).2.2 rfl).1⟩

/-- Claim C10 (confirmed): `CellImageSequence.__init__` forwards its `copy`
flag into the `allow_different_dtypes` position of the base constructor, so
the default `copy=True` accepts mixed dtypes without any error and makes the
sequence's `dtype` property `None` even for uniform dtypes, while
`copy=False` re-enables the uniform-dtype check, which fails fatally on
mixed dtypes. -/
theorem c10_cellseq_copy_is_allow_dtypes (a b : CellImage)
    (h : a.toImage.modality = b.toImage.modality) :
    CellImageSequence.init [a, b] true = .ok ⟨[a, b], false, true⟩ ∧
    CellImageSequence.dtype ⟨[a, b], false, true⟩ = none ∧
    (a.toImage.dtype ≠ b.toImage.dtype →
      CellImageSequence.init [a, b] false = .error .fatalExit) := by
  refine ⟨?_, rfl, ?_⟩
  · unfold CellImageSequence.init
    simp [ImageSequence.checks, h]
  · intro hne
    have hb : decide (b.toImage.dtype = a.toImage.dtype) = false :=
      decide_eq_false fun hh => hne hh.symm
    unfold CellImageSequence.init
    simp [ImageSequence.checks, hb]

/-- Witness for the C10 theorem at concrete mixed-dtype cell images. -/
theorem c10_cellseq_copy_is_allow_dtypes_witness :
    CellImageSequence.init [c10cu, c10cf] false = .error .fatalExit :=
  (c10_cellseq_copy_is_allow_dtypes c10cu c10cf rfl).2.2 (by decide)

/-- Witness for the amended C5 theorem at a concrete flag combination. -/
theorem c5_empty_sequence_fails_witness :
    ImageSequence.init [] true true = .error .fatalExit ∧
    CellImageSequence.init [] true = .error .fatalExit ∧
    ModuleImageSequence.init [] true true = .error .indexError :=
  c5_empty_sequence_fails true true true
